import Mathlib

/-!
Shallow embedding of the query pipeline of the rag-faq-system repository
(src/app/rag/query_engine.py, src/app/rag/embeddings.py,
src/app/rag/vector_store.py, src/app/models/schemas.py,
src/app/api/routes.py, src/config/settings.py), together with theorems
settling the frozen claims about it.

Numbers are modelled as rationals; Python `round(x, 3)` is modelled as
round-half-to-even at 3 decimal places.  Fallible operations return
`Except Unit`; collaborator behaviour (embedding model, similarity index,
LLM providers) is passed in as explicit outcome parameters.
-/

namespace RagFaq

/-- Python `round` to an integer: round half to even (banker's rounding). -/
def roundHalfEven (q : ℚ) : ℤ :=
  if q - ⌊q⌋ < 1/2 then ⌊q⌋
  else if 1/2 < q - ⌊q⌋ then ⌊q⌋ + 1
  else if ⌊q⌋ % 2 = 0 then ⌊q⌋ else ⌊q⌋ + 1

/-- Python `round(x, 3)`: round to 3 decimal places, half to even. -/
def pyRound3 (q : ℚ) : ℚ := (roundHalfEven (1000 * q) : ℚ) / 1000

/-- Embeds `config/settings.py` `Settings`: the fields the query pipeline reads. -/
structure Settings where
  LLM_PROVIDER : String
  TOP_K_RESULTS : ℕ
  SIMILARITY_THRESHOLD : ℚ
  CLINIC_NAME : String
  CLINIC_PHONE : String
deriving DecidableEq, Repr

/-- The defaults declared in `config/settings.py`. -/
def defaultSettings : Settings :=
  { LLM_PROVIDER := "anthropic"
    TOP_K_RESULTS := 3
    SIMILARITY_THRESHOLD := 6/10
    CLINIC_NAME := "HealthCare Plus Clinic"
    CLINIC_PHONE := "+1-555-123-4567" }

/-- One nearest-neighbour match as returned by `VectorStore.query`
(one aligned entry of `results['documents'][0]`, `results['distances'][0]`,
`results['metadatas'][0]`). -/
structure IndexMatch where
  document : String
  distance : ℚ
  metadata : List (String × String)
deriving DecidableEq, Repr

/-- Embeds `app/models/schemas.py` `SourceDocument` (the validated fields). -/
structure SourceDocument where
  content : String
  metadata : List (String × String)
  similarity_score : ℚ
deriving DecidableEq, Repr

/-- Pydantic construction of `SourceDocument`: `similarity_score` carries
`ge=0.0, le=1.0` constraints, so construction raises (models as `.error`)
when the score is out of range. -/
def mkSourceDocument (content : String) (metadata : List (String × String))
    (score : ℚ) : Except Unit SourceDocument :=
  if 0 ≤ score ∧ score ≤ 1 then .ok ⟨content, metadata, score⟩ else .error ()

/-- Embeds `app/models/schemas.py` `QueryResponse` (the validated fields). -/
structure QueryResponse where
  answer : String
  sources : List SourceDocument
  confidence : ℚ
  question : String
deriving DecidableEq, Repr

/-- Pydantic construction of `QueryResponse`: `confidence` carries
`ge=0.0, le=1.0` constraints. -/
def mkQueryResponse (answer : String) (sources : List SourceDocument)
    (confidence : ℚ) (question : String) : Except Unit QueryResponse :=
  if 0 ≤ confidence ∧ confidence ≤ 1 then
    .ok ⟨answer, sources, confidence, question⟩
  else .error ()

/-- Embeds `app/models/schemas.py` `QueryRequest`. -/
structure QueryRequest where
  question : String
  conversation_id : Option String
deriving DecidableEq, Repr

/-- Pydantic construction of `QueryRequest`: `question` carries
`min_length=1`, so the empty string is rejected at the transport boundary. -/
def mkQueryRequest (question : String) (conversation_id : Option String) :
    Except Unit QueryRequest :=
  if 1 ≤ question.length then .ok ⟨question, conversation_id⟩ else .error ()

/-- Joint outcome of the two collaborator calls inside
`QueryEngine.retrieve_documents`: `self.embedding_model.encode_single`
may raise (`embedFail`), `self.vector_store.query` may raise
(`indexFail`), or the index returns its list of matches. -/
inductive RetrievalOutcome where
  | embedFail
  | indexFail
  | results (ms : List IndexMatch)
deriving DecidableEq, Repr

/-- The result-parsing loop of `QueryEngine.retrieve_documents`
(query_engine.py lines 86-97): for each match, `similarity = 1 - distance`;
keep it iff `similarity >= settings.SIMILARITY_THRESHOLD`, constructing a
`SourceDocument` with `similarity_score=round(similarity, 3)`.  Construction
can raise (Pydantic validation), which aborts the whole loop. -/
def parseResults (s : Settings) : List IndexMatch →
    Except Unit (List SourceDocument)
  | [] => .ok []
  | m :: ms =>
    let similarity : ℚ := 1 - m.distance
    if s.SIMILARITY_THRESHOLD ≤ similarity then do
      let d ← mkSourceDocument m.document m.metadata (pyRound3 similarity)
      let rest ← parseResults s ms
      pure (d :: rest)
    else
      parseResults s ms

/-- The body of the `try` block of `QueryEngine.retrieve_documents`
(lines 75-100): an embedding failure or index failure raises out of it;
otherwise the matches are parsed (which may itself raise). -/
def tryRetrieve (s : Settings) : RetrievalOutcome →
    Except Unit (List SourceDocument)
  | .embedFail => .error ()
  | .indexFail => .error ()
  | .results ms => parseResults s ms

/-- Embeds `QueryEngine.retrieve_documents` (lines 70-104): the broad
`except Exception` catches every failure of the try block and returns `[]`. -/
def retrieve_documents (s : Settings) (r : RetrievalOutcome) :
    List SourceDocument :=
  match tryRetrieve s r with
  | .error _ => []
  | .ok docs => docs

/-- Python `str.strip()` with no argument: remove leading and trailing
whitespace. -/
def pyStrip (s : String) : String :=
  ⟨(((s.data.dropWhile Char.isWhitespace).reverse).dropWhile
      Char.isWhitespace).reverse⟩

/-- `sub` occurs in `msg` as a contiguous substring. -/
def strContains (msg sub : String) : Prop := sub.data <:+: msg.data

/-- Outcome of one provider generation call (`_generate_anthropic`,
`_generate_openai`, `_generate_ollama`): either returned text, or raised. -/
inductive GenOutcome where
  | ok (text : String)
  | fail
deriving DecidableEq, Repr

/-- Behaviour of the three LLM provider calls, as functions of the prompt
arguments the code passes them. -/
structure GenCollab where
  anthropic : String → GenOutcome
  openai : String → String → GenOutcome
  ollama : String → String → GenOutcome

/-- The fixed no-context message of `QueryEngine.generate_answer`
(lines 108-112). -/
def insufficientMsg (s : Settings) : String :=
  "I don\x27t have enough information to answer that question. " ++
  "Please contact our clinic directly at " ++ s.CLINIC_PHONE ++
  " for assistance."

/-- The fixed apology of `QueryEngine.generate_answer` (lines 154-159). -/
def apologyMsg (s : Settings) : String :=
  "I apologize, but I\x27m having trouble generating a response right now. " ++
  "Please call us at " ++ s.CLINIC_PHONE ++ " for assistance."

/-- The system message built at line 121. -/
def systemMessage (s : Settings) : String :=
  "You are a helpful medical clinic assistant for " ++ s.CLINIC_NAME ++ "."

/-- The context block built at lines 115-118: one labelled block per
retrieved document, separated by blank lines. -/
def contextBlock (docs : List SourceDocument) : String :=
  String.intercalate "\n\n" (docs.enum.map fun p =>
    "Document " ++ toString (p.1 + 1) ++ " (Relevance: " ++
    toString p.2.similarity_score ++ "):\n" ++ p.2.content)

/-- The user prompt built at lines 123-135. -/
def userPrompt (question : String)
    (docs : List SourceDocument) : String :=
  "Context from our knowledge base:\n" ++ contextBlock docs ++
  "\n\nUser question: " ++ question ++
  "\n\nInstructions:\n" ++
  "- Provide a helpful, accurate answer based ONLY on the context provided above\n" ++
  "- Be friendly, professional, and empathetic\n" ++
  "- If the context doesn\x27t contain the answer, politely say you don\x27t know and suggest contacting the clinic\n" ++
  "- Keep the response concise but complete (2-4 sentences)\n" ++
  "- Use natural, conversational language\n\nAnswer:"

/-- The provider dispatch inside the `try` of `generate_answer`
(lines 139-149).  Returns the call outcome and whether a provider call was
made; the final `else` makes no call and yields the fixed error string. -/
def dispatchProvider (s : Settings) (gen : GenCollab)
    (sysMsg uPrompt : String) : GenOutcome × Bool :=
  if s.LLM_PROVIDER = "anthropic" then (gen.anthropic uPrompt, true)
  else if s.LLM_PROVIDER = "openai" then (gen.openai sysMsg uPrompt, true)
  else if s.LLM_PROVIDER = "ollama" then (gen.ollama sysMsg uPrompt, true)
  else (.ok "Error: Unknown LLM provider", false)

/-- Embeds `QueryEngine.generate_answer` (lines 106-159).  Second component
records whether an LLM provider call was made.  A successful call's text is
returned stripped; a raising call is caught and replaced by the apology. -/
def generate_answer (s : Settings) (gen : GenCollab) (question : String)
    (context_docs : List SourceDocument) : String × Bool :=
  if context_docs = [] then (insufficientMsg s, false)
  else
    let res := dispatchProvider s gen (systemMessage s)
      (userPrompt question context_docs)
    match res.1 with
    | .ok a => (pyStrip a, res.2)
    | .fail => (apologyMsg s, res.2)

/-- Embeds `QueryEngine.query` (lines 237-258): retrieve, generate,
average the stored similarity scores (0.0 when no sources), and assemble
the response with `confidence=round(confidence, 3)`. -/
def query (s : Settings) (r : RetrievalOutcome) (gen : GenCollab)
    (question : String) : Except Unit QueryResponse :=
  let source_docs := retrieve_documents s r
  let answer := (generate_answer s gen question source_docs).1
  let confidence : ℚ :=
    if source_docs = [] then 0
    else (source_docs.map (·.similarity_score)).sum / source_docs.length
  mkQueryResponse answer source_docs (pyRound3 confidence) question

/-- Embeds the `/ask` route handler `ask_question` (routes.py lines 12-34):
it forwards `request.question` to `QueryEngine.query` and never reads
`request.conversation_id`. -/
def ask_question (s : Settings) (r : RetrievalOutcome) (gen : GenCollab)
    (req : QueryRequest) : Except Unit QueryResponse :=
  query s r gen req.question

/-- Concrete provider behaviour for instantiating theorems: every call
succeeds with fixed text. -/
def genOk : GenCollab :=
  ⟨fun _ => .ok "Our office hours are 9am-5pm.",
   fun _ _ => .ok "Our office hours are 9am-5pm.",
   fun _ _ => .ok "Our office hours are 9am-5pm."⟩

/-- Concrete provider behaviour for instantiating theorems: every call
raises (timeout, network error, bad status, malformed response). -/
def genFailAll : GenCollab :=
  ⟨fun _ => .fail, fun _ _ => .fail, fun _ _ => .fail⟩

/-- A settings record whose provider identifier is not one of the three
recognized providers. -/
def badProviderSettings : Settings :=
  { defaultSettings with LLM_PROVIDER := "gemini" }

/-- A concrete index match above the default threshold:
distance 1/4, similarity 3/4. -/
def closeMatch : IndexMatch :=
  ⟨"Office Hours: 9am-5pm Mon-Fri", mkRat 1 4, [("category", "hours")]⟩

/-- A second concrete index match, farther away: distance 3/10,
similarity 7/10. -/
def fartherMatch : IndexMatch :=
  ⟨"We accept Blue Cross insurance.", mkRat 3 10, [("category", "insurance")]⟩

/-- The source document `retrieve_documents` builds from `closeMatch`. -/
def closeDoc : SourceDocument :=
  ⟨"Office Hours: 9am-5pm Mon-Fri", [("category", "hours")], mkRat 3 4⟩

/-- The source document `retrieve_documents` builds from `fartherMatch`. -/
def fartherDoc : SourceDocument :=
  ⟨"We accept Blue Cross insurance.", [("category", "insurance")], mkRat 7 10⟩

/-!  ## Helper lemmas  -/

theorem except_ok_then {α β : Type} (a : α) (f : α → Except Unit β) :
    (do let x ← Except.ok a; f x) = f a := rfl

theorem except_error_then {α β : Type} (f : α → Except Unit β) :
    (do let x ← Except.error (); f x) = Except.error () := rfl

theorem roundHalfEven_intCast (n : ℤ) : roundHalfEven (n : ℚ) = n := by
  unfold roundHalfEven
  rw [Int.floor_intCast]
  norm_num

theorem roundHalfEven_floor_or_succ (q : ℚ) :
    roundHalfEven q = ⌊q⌋ ∨ roundHalfEven q = ⌊q⌋ + 1 := by
  unfold roundHalfEven
  split_ifs <;> simp

theorem roundHalfEven_mono {p q : ℚ} (h : p ≤ q) :
    roundHalfEven p ≤ roundHalfEven q := by
  rcases lt_or_eq_of_le (Int.floor_le_floor h) with hf | hf
  · rcases roundHalfEven_floor_or_succ p with hp | hp <;>
      rcases roundHalfEven_floor_or_succ q with hq | hq <;> omega
  · have hr : p - (⌊p⌋ : ℚ) ≤ q - (⌊q⌋ : ℚ) := by
      rw [hf]; linarith
    unfold roundHalfEven
    rw [hf] at hr ⊢
    split_ifs <;> first | omega | linarith

theorem pyRound3_zero : pyRound3 0 = 0 := by
  have h : (1000 : ℚ) * 0 = ((0 : ℤ) : ℚ) := by norm_num
  unfold pyRound3
  rw [h, roundHalfEven_intCast]
  norm_num

theorem pyRound3_one : pyRound3 1 = 1 := by
  have h : (1000 : ℚ) * 1 = ((1000 : ℤ) : ℚ) := by norm_num
  unfold pyRound3
  rw [h, roundHalfEven_intCast]
  norm_num

theorem pyRound3_mono {p q : ℚ} (h : p ≤ q) : pyRound3 p ≤ pyRound3 q := by
  unfold pyRound3
  have hm : roundHalfEven (1000 * p) ≤ roundHalfEven (1000 * q) :=
    roundHalfEven_mono (by linarith)
  have hc : ((roundHalfEven (1000 * p) : ℤ) : ℚ) ≤
      ((roundHalfEven (1000 * q) : ℤ) : ℚ) := by exact_mod_cast hm
  have h1000 : (0 : ℚ) < 1000 := by norm_num
  exact (div_le_div_iff_of_pos_right h1000).mpr hc

theorem pyRound3_nonneg {q : ℚ} (h : 0 ≤ q) : 0 ≤ pyRound3 q := by
  have := pyRound3_mono h
  rwa [pyRound3_zero] at this

theorem pyRound3_le_one {q : ℚ} (h : q ≤ 1) : pyRound3 q ≤ 1 := by
  have := pyRound3_mono h
  rwa [pyRound3_one] at this

theorem mkSourceDocument_ok {c : String} {md : List (String × String)}
    {sc : ℚ} {d : SourceDocument} (h : mkSourceDocument c md sc = .ok d) :
    d = ⟨c, md, sc⟩ ∧ 0 ≤ sc ∧ sc ≤ 1 := by
  unfold mkSourceDocument at h
  split_ifs at h with hb
  simp only [Except.ok.injEq] at h
  exact ⟨h.symm, hb.1, hb.2⟩

/-- Every document produced by the parsing loop of `retrieve_documents`
traces back to an above-threshold index match, carries that match's rounded
similarity, and passed the Pydantic range validation. -/
theorem parseResults_spec {s : Settings} {ms : List IndexMatch}
    {docs : List SourceDocument} (h : parseResults s ms = .ok docs) :
    ∀ d ∈ docs, (0 ≤ d.similarity_score ∧ d.similarity_score ≤ 1) ∧
      ∃ m ∈ ms, d.content = m.document ∧
        s.SIMILARITY_THRESHOLD ≤ 1 - m.distance ∧
        d.similarity_score = pyRound3 (1 - m.distance) := by
  induction ms generalizing docs with
  | nil =>
    unfold parseResults at h
    simp only [Except.ok.injEq] at h
    subst h
    intro d hd
    cases hd
  | cons m ms ih =>
    unfold parseResults at h
    by_cases hth : s.SIMILARITY_THRESHOLD ≤ 1 - m.distance
    · rw [if_pos hth] at h
      cases hmk : mkSourceDocument m.document m.metadata
          (pyRound3 (1 - m.distance)) with
      | error e =>
        rw [hmk, except_error_then] at h
        cases h
      | ok d₀ =>
        rw [hmk, except_ok_then] at h
        cases hrest : parseResults s ms with
        | error e =>
          rw [hrest, except_error_then] at h
          cases h
        | ok rest =>
          rw [hrest, except_ok_then] at h
          simp only [pure, Except.pure, Except.ok.injEq] at h
          subst h
          intro d hd
          rcases List.mem_cons.mp hd with hd0 | hdr
          · subst hd0
            obtain ⟨hde, h0, h1⟩ := mkSourceDocument_ok hmk
            subst hde
            exact ⟨⟨h0, h1⟩, m, List.mem_cons_self m ms, rfl, hth, rfl⟩
          · obtain ⟨hrange, m₂, hm₂, hrest₂⟩ := ih hrest d hdr
            exact ⟨hrange, m₂, List.mem_cons_of_mem m hm₂, hrest₂⟩
    · rw [if_neg hth] at h
      intro d hd
      obtain ⟨hrange, m₂, hm₂, hrest₂⟩ := ih h d hd
      exact ⟨hrange, m₂, List.mem_cons_of_mem m hm₂, hrest₂⟩

/-- The parsing loop preserves the index's order; with ascending distances
the kept documents have non-increasing rounded similarity. -/
theorem parseResults_sorted {s : Settings} {ms : List IndexMatch}
    {docs : List SourceDocument} (h : parseResults s ms = .ok docs)
    (hms : ms.Pairwise (fun a b => a.distance ≤ b.distance)) :
    docs.Pairwise (fun a b => b.similarity_score ≤ a.similarity_score) := by
  induction ms generalizing docs with
  | nil =>
    unfold parseResults at h
    simp only [Except.ok.injEq] at h
    subst h
    exact List.Pairwise.nil
  | cons m ms ih =>
    rw [List.pairwise_cons] at hms
    unfold parseResults at h
    by_cases hth : s.SIMILARITY_THRESHOLD ≤ 1 - m.distance
    · rw [if_pos hth] at h
      cases hmk : mkSourceDocument m.document m.metadata
          (pyRound3 (1 - m.distance)) with
      | error e =>
        rw [hmk, except_error_then] at h
        cases h
      | ok d₀ =>
        rw [hmk, except_ok_then] at h
        cases hrest : parseResults s ms with
        | error e =>
          rw [hrest, except_error_then] at h
          cases h
        | ok rest =>
          rw [hrest, except_ok_then] at h
          simp only [pure, Except.pure, Except.ok.injEq] at h
          subst h
          refine List.Pairwise.cons ?_ (ih hrest hms.2)
          intro b hb
          obtain ⟨_, m₂, hm₂, _, _, hbscore⟩ := parseResults_spec hrest b hb
          obtain ⟨hd₀, _, _⟩ := mkSourceDocument_ok hmk
          subst hd₀
          rw [hbscore]
          exact pyRound3_mono (by have := hms.1 m₂ hm₂; linarith)
    · rw [if_neg hth] at h
      exact ih h hms.2

/-- Range and provenance of everything `retrieve_documents` returns, over
all three collaborator outcomes. -/
theorem retrieve_documents_spec (s : Settings) (r : RetrievalOutcome) :
    ∀ d ∈ retrieve_documents s r,
      (0 ≤ d.similarity_score ∧ d.similarity_score ≤ 1) ∧
      ∃ ms, r = .results ms ∧ ∃ m ∈ ms, d.content = m.document ∧
        s.SIMILARITY_THRESHOLD ≤ 1 - m.distance ∧
        d.similarity_score = pyRound3 (1 - m.distance) := by
  intro d hd
  cases r with
  | embedFail => cases hd
  | indexFail => cases hd
  | results ms =>
    simp only [retrieve_documents, tryRetrieve] at hd
    cases hp : parseResults s ms with
    | error e => rw [hp] at hd; cases hd
    | ok docs =>
      rw [hp] at hd
      obtain ⟨hrange, hprov⟩ := parseResults_spec hp d hd
      exact ⟨hrange, ms, rfl, hprov⟩

theorem list_sum_le_length {l : List ℚ} (h : ∀ x ∈ l, x ≤ 1) :
    l.sum ≤ l.length := by
  induction l with
  | nil => simp
  | cons a l ih =>
    have ha := h a (List.mem_cons_self a l)
    have hl := ih fun x hx => h x (List.mem_cons_of_mem a hx)
    simp only [List.sum_cons, List.length_cons]
    push_cast
    linarith

/-- The confidence expression computed in `QueryEngine.query` lines 248-251
(before rounding) lies in `[0, 1]` whenever every stored score does. -/
theorem confidence_expr_bounds (docs : List SourceDocument)
    (h : ∀ d ∈ docs, 0 ≤ d.similarity_score ∧ d.similarity_score ≤ 1) :
    0 ≤ (if docs = [] then (0 : ℚ)
        else (docs.map (·.similarity_score)).sum / docs.length) ∧
    (if docs = [] then (0 : ℚ)
        else (docs.map (·.similarity_score)).sum / docs.length) ≤ 1 := by
  by_cases hd : docs = []
  · simp [hd]
  · rw [if_neg hd]
    have hlen : (0 : ℚ) < docs.length := by
      have hne : docs.length ≠ 0 := fun hc => hd (List.eq_nil_of_length_eq_zero hc)
      exact_mod_cast Nat.pos_of_ne_zero hne
    have hsum0 : 0 ≤ (docs.map (·.similarity_score)).sum := by
      apply List.sum_nonneg
      intro x hx
      obtain ⟨d, hdm, hdx⟩ := List.mem_map.mp hx
      exact hdx ▸ (h d hdm).1
    have hsum1 : (docs.map (·.similarity_score)).sum ≤ docs.length := by
      have := list_sum_le_length (l := docs.map (·.similarity_score)) ?_
      · rwa [List.length_map] at this
      · intro x hx
        obtain ⟨d, hdm, hdx⟩ := List.mem_map.mp hx
        exact hdx ▸ (h d hdm).2
    exact ⟨div_nonneg hsum0 hlen.le, (div_le_one hlen).mpr hsum1⟩

/-- The Pydantic validation of `QueryResponse` always succeeds in
`QueryEngine.query`: the assembled response is returned as such. -/
theorem query_ok (s : Settings) (r : RetrievalOutcome) (gen : GenCollab)
    (q : String) :
    query s r gen q = .ok
      { answer := (generate_answer s gen q (retrieve_documents s r)).1
        sources := retrieve_documents s r
        confidence := pyRound3 (if retrieve_documents s r = [] then 0
          else ((retrieve_documents s r).map (·.similarity_score)).sum /
            (retrieve_documents s r).length)
        question := q } := by
  have hrange := fun d hd => (retrieve_documents_spec s r d hd).1
  obtain ⟨h0, h1⟩ := confidence_expr_bounds (retrieve_documents s r) hrange
  simp only [query, mkQueryResponse]
  rw [if_pos ⟨pyRound3_nonneg h0, pyRound3_le_one h1⟩]

theorem strContains_mid (a b sub : String) :
    strContains ((a ++ sub) ++ b) sub :=
  ⟨a.data, b.data, by simp⟩

theorem insufficientMsg_contains_phone (s : Settings) :
    strContains (insufficientMsg s) s.CLINIC_PHONE :=
  strContains_mid _ _ _

theorem apologyMsg_contains_phone (s : Settings) :
    strContains (apologyMsg s) s.CLINIC_PHONE :=
  strContains_mid _ _ _

theorem mkSourceDocument_of_bounds {c : String} {md : List (String × String)}
    {sc : ℚ} (h0 : 0 ≤ sc) (h1 : sc ≤ 1) :
    mkSourceDocument c md sc = .ok ⟨c, md, sc⟩ := by
  unfold mkSourceDocument
  rw [if_pos ⟨h0, h1⟩]

theorem parseResults_cons_kept {s : Settings} {m : IndexMatch}
    {ms : List IndexMatch} (ht : s.SIMILARITY_THRESHOLD ≤ 1 - m.distance)
    {d : SourceDocument}
    (hd : mkSourceDocument m.document m.metadata
      (pyRound3 (1 - m.distance)) = .ok d)
    {rest : List SourceDocument} (hr : parseResults s ms = .ok rest) :
    parseResults s (m :: ms) = .ok (d :: rest) := by
  unfold parseResults
  rw [if_pos ht, hd, except_ok_then, hr, except_ok_then]
  rfl

theorem pyRound3_closeMatch : pyRound3 (1 - closeMatch.distance) =
    (mkRat 3 4 : ℚ) := by
  have e1 : (1 : ℚ) - closeMatch.distance = 3/4 := by
    show (1 : ℚ) - mkRat 1 4 = 3/4
    rw [Rat.mkRat_eq_div]
    norm_num
  rw [e1]
  unfold pyRound3
  rw [show (1000 : ℚ) * (3/4) = ((750 : ℤ) : ℚ) by norm_num,
    roundHalfEven_intCast, Rat.mkRat_eq_div]
  norm_num

theorem pyRound3_fartherMatch : pyRound3 (1 - fartherMatch.distance) =
    (mkRat 7 10 : ℚ) := by
  have e1 : (1 : ℚ) - fartherMatch.distance = 7/10 := by
    show (1 : ℚ) - mkRat 3 10 = 7/10
    rw [Rat.mkRat_eq_div]
    norm_num
  rw [e1]
  unfold pyRound3
  rw [show (1000 : ℚ) * (7/10) = ((700 : ℤ) : ℚ) by norm_num,
    roundHalfEven_intCast, Rat.mkRat_eq_div]
  norm_num

/-- Concrete evaluation of the retrieval stage on the two example matches:
both are above the default threshold and come back in order with rounded
scores. -/
theorem retrieve_eval_concrete :
    retrieve_documents defaultSettings
      (.results [closeMatch, fartherMatch]) = [closeDoc, fartherDoc] := by
  have t1 : defaultSettings.SIMILARITY_THRESHOLD ≤ 1 - closeMatch.distance := by
    show (6 : ℚ)/10 ≤ 1 - mkRat 1 4
    rw [Rat.mkRat_eq_div]
    norm_num
  have t2 : defaultSettings.SIMILARITY_THRESHOLD ≤ 1 - fartherMatch.distance := by
    show (6 : ℚ)/10 ≤ 1 - mkRat 3 10
    rw [Rat.mkRat_eq_div]
    norm_num
  have b1 : (0 : ℚ) ≤ mkRat 3 4 ∧ (mkRat 3 4 : ℚ) ≤ 1 := by
    rw [Rat.mkRat_eq_div]
    constructor <;> norm_num
  have b2 : (0 : ℚ) ≤ mkRat 7 10 ∧ (mkRat 7 10 : ℚ) ≤ 1 := by
    rw [Rat.mkRat_eq_div]
    constructor <;> norm_num
  have hp2 : parseResults defaultSettings [fartherMatch] = .ok [fartherDoc] := by
    refine parseResults_cons_kept t2 ?_ rfl
    rw [pyRound3_fartherMatch]
    exact mkSourceDocument_of_bounds b2.1 b2.2
  have hp1 : parseResults defaultSettings [closeMatch, fartherMatch] =
      .ok [closeDoc, fartherDoc] := by
    refine parseResults_cons_kept t1 ?_ hp2
    rw [pyRound3_closeMatch]
    exact mkSourceDocument_of_bounds b1.1 b1.2
  simp only [retrieve_documents, tryRetrieve, hp1]

/-!  ## Claim theorems  -/

/-- C1: for every returned response, `confidence` equals the arithmetic
mean of `sources[].similarity_score` rounded to 3 decimals when `sources`
is non-empty, and 0.0 when it is empty; this holds for every provider
behaviour, i.e. regardless of whether answer generation succeeded or
failed. -/
theorem confidence_is_rounded_mean (s : Settings) (r : RetrievalOutcome)
    (gen : GenCollab) (q : String) :
    ∃ resp, query s r gen q = .ok resp ∧
      resp.sources = retrieve_documents s r ∧
      resp.confidence = (if resp.sources = [] then 0
        else pyRound3 ((resp.sources.map (·.similarity_score)).sum /
          resp.sources.length)) := by
  refine ⟨_, query_ok s r gen q, rfl, ?_⟩
  by_cases hd : retrieve_documents s r = []
  · simp [hd, pyRound3_zero]
  · simp [hd]

/-- C2: when retrieval yields zero sources, the answer is the fixed
insufficient-information message containing the configured clinic phone
number, the confidence is 0.0, and no LLM provider call is made. -/
theorem no_sources_fixed_message_no_provider_call (s : Settings)
    (r : RetrievalOutcome) (gen : GenCollab) (q : String)
    (h : retrieve_documents s r = []) :
    (generate_answer s gen q (retrieve_documents s r)).2 = false ∧
    ∃ resp, query s r gen q = .ok resp ∧
      resp.answer = insufficientMsg s ∧
      strContains resp.answer s.CLINIC_PHONE ∧
      resp.confidence = 0 := by
  have ha : generate_answer s gen q ([] : List SourceDocument) =
      (insufficientMsg s, false) := rfl
  refine ⟨by rw [h, ha], _, query_ok s r gen q, ?_, ?_, ?_⟩
  · show (generate_answer s gen q (retrieve_documents s r)).1 =
      insufficientMsg s
    rw [h, ha]
  · show strContains (generate_answer s gen q (retrieve_documents s r)).1
      s.CLINIC_PHONE
    rw [h, ha]
    exact insufficientMsg_contains_phone s
  · show pyRound3 (if retrieve_documents s r = [] then 0
      else ((retrieve_documents s r).map (·.similarity_score)).sum /
        (retrieve_documents s r).length) = 0
    rw [h]
    simp [pyRound3_zero]

/-- C2 witness: a concrete query whose retrieval returns no matches. -/
theorem no_sources_fixed_message_no_provider_call_witness :
    (generate_answer defaultSettings genOk "What are your office hours?"
      (retrieve_documents defaultSettings (.results []))).2 = false ∧
    ∃ resp, query defaultSettings (.results []) genOk
        "What are your office hours?" = .ok resp ∧
      resp.answer = insufficientMsg defaultSettings ∧
      strContains resp.answer defaultSettings.CLINIC_PHONE ∧
      resp.confidence = 0 :=
  no_sources_fixed_message_no_provider_call defaultSettings (.results [])
    genOk "What are your office hours?" rfl

/-- C3 counterexample: with one retrieved source and an unknown provider
identifier reached at call time, `generate_answer` returns the fixed
string "Error: Unknown LLM provider", which does not contain the
configured clinic phone number — contradicting the claim that every such
failure yields an answer containing the phone number. -/
theorem unknown_provider_answer_lacks_phone :
    (generate_answer badProviderSettings genOk "hi" [closeDoc]).1 =
      "Error: Unknown LLM provider" ∧
    ¬ strContains
      (generate_answer badProviderSettings genOk "hi" [closeDoc]).1
      badProviderSettings.CLINIC_PHONE := by
  have he : (generate_answer badProviderSettings genOk "hi" [closeDoc]).1 =
      "Error: Unknown LLM provider" := rfl
  refine ⟨he, ?_⟩
  rw [he]
  unfold strContains
  decide

/-- C3 (amended): with at least one retrieved source, any raising failure
of the provider generation call (timeout, network error, bad status,
malformed response) is caught and replaced by the fixed apology containing
the configured clinic phone number; an unknown provider identifier reached
at call time instead yields the fixed string "Error: Unknown LLM provider"
without the phone number; in both cases `generate_answer` returns normally
instead of raising. -/
theorem generation_failure_recovered (s : Settings) (gen : GenCollab)
    (q : String) (docs : List SourceDocument) (hd : docs ≠ []) :
    ((dispatchProvider s gen (systemMessage s) (userPrompt q docs)).1 =
        GenOutcome.fail →
      (generate_answer s gen q docs).1 = apologyMsg s ∧
      strContains (generate_answer s gen q docs).1 s.CLINIC_PHONE) ∧
    (s.LLM_PROVIDER ≠ "anthropic" → s.LLM_PROVIDER ≠ "openai" →
      s.LLM_PROVIDER ≠ "ollama" →
      (generate_answer s gen q docs).1 = "Error: Unknown LLM provider") := by
  constructor
  · intro hfail
    constructor
    · simp only [generate_answer, if_neg hd, hfail]
    · simp only [generate_answer, if_neg hd, hfail]
      exact apologyMsg_contains_phone s
  · intro h1 h2 h3
    have hdis : dispatchProvider s gen (systemMessage s) (userPrompt q docs) =
        (.ok "Error: Unknown LLM provider", false) := by
      unfold dispatchProvider
      rw [if_neg h1, if_neg h2, if_neg h3]
    simp only [generate_answer, if_neg hd, hdis]
    decide

/-- C3 witness: a concretely failing provider call with one retrieved
source yields the apology carrying the phone number. -/
theorem generation_failure_recovered_witness :
    (generate_answer defaultSettings genFailAll "hi" [closeDoc]).1 =
      apologyMsg defaultSettings ∧
    strContains
      (generate_answer defaultSettings genFailAll "hi" [closeDoc]).1
      defaultSettings.CLINIC_PHONE :=
  (generation_failure_recovered defaultSettings genFailAll "hi" [closeDoc]
    (List.cons_ne_nil _ _)).1 rfl

/-- C4 counterexample: at the concrete state where the embedding
computation raises, the inner try-block of `retrieve_documents` fails, yet
`retrieve_documents` returns the ordinary value `[]` to its caller — the
failure is swallowed, not propagated as the claim states. -/
theorem embedding_failure_swallowed :
    tryRetrieve defaultSettings .embedFail = .error () ∧
    retrieve_documents defaultSettings .embedFail = [] :=
  ⟨rfl, rfl⟩

/-- C4 (amended): if the embedding computation raises, the broad exception
handler of `retrieve_documents` catches it and returns an empty list — the
same degraded result as an index-query failure — rather than propagating
the failure to the caller of retrieval. -/
theorem embedding_failure_returns_empty (s : Settings) :
    retrieve_documents s .embedFail = [] ∧
    retrieve_documents s .embedFail = retrieve_documents s .indexFail :=
  ⟨rfl, rfl⟩

/-- C5: every document in the returned sources arises from an index
candidate whose computed similarity (1 minus distance) is at least the
configured threshold and carries that candidate's rounded similarity: no
candidate strictly below the threshold ever appears, and none is
backfilled. -/
theorem below_threshold_never_in_sources (s : Settings)
    (ms : List IndexMatch) :
    ∀ d ∈ retrieve_documents s (.results ms), ∃ m ∈ ms,
      d.content = m.document ∧ s.SIMILARITY_THRESHOLD ≤ 1 - m.distance ∧
      d.similarity_score = pyRound3 (1 - m.distance) := by
  intro d hd
  obtain ⟨-, ms₂, hms₂, hprov⟩ :=
    retrieve_documents_spec s (.results ms) d hd
  injection hms₂ with hms
  subst hms
  exact hprov

/-- C5 witness at the concrete two-match retrieval. -/
theorem below_threshold_never_in_sources_witness :
    ∃ m ∈ [closeMatch, fartherMatch], closeDoc.content = m.document ∧
      defaultSettings.SIMILARITY_THRESHOLD ≤ 1 - m.distance ∧
      closeDoc.similarity_score = pyRound3 (1 - m.distance) :=
  below_threshold_never_in_sources defaultSettings [closeMatch, fartherMatch]
    closeDoc (by simp [retrieve_eval_concrete])

/-- C6: assuming the similarity index returns its matches in
ascending-distance order, the returned sources are sorted by similarity
score in descending (non-increasing) order, so the head is the best
match. -/
theorem sources_sorted_descending (s : Settings) (ms : List IndexMatch)
    (hms : ms.Pairwise (fun a b => a.distance ≤ b.distance)) :
    (retrieve_documents s (.results ms)).Pairwise
      (fun a b => b.similarity_score ≤ a.similarity_score) := by
  simp only [retrieve_documents, tryRetrieve]
  cases hp : parseResults s ms with
  | error e => exact List.Pairwise.nil
  | ok docs => exact parseResults_sorted hp hms

/-- C6 witness: concrete ascending-distance matches give sources in
non-increasing similarity order. -/
theorem sources_sorted_descending_witness :
    (retrieve_documents defaultSettings
      (.results [closeMatch, fartherMatch])).Pairwise
      (fun a b => b.similarity_score ≤ a.similarity_score) :=
  sources_sorted_descending defaultSettings [closeMatch, fartherMatch]
    (by decide)

/-- C7: every element of the returned sources has similarity score in the
closed interval [0, 1], and the score is an integer multiple of 1/1000
(rounded to 3 decimal places). -/
theorem scores_in_unit_interval (s : Settings) (r : RetrievalOutcome) :
    ∀ d ∈ retrieve_documents s r, 0 ≤ d.similarity_score ∧
      d.similarity_score ≤ 1 ∧
      ∃ n : ℤ, d.similarity_score = (n : ℚ) / 1000 := by
  intro d hd
  obtain ⟨⟨h0, h1⟩, ms, -, m, -, -, -, hsc⟩ :=
    retrieve_documents_spec s r d hd
  exact ⟨h0, h1, roundHalfEven (1000 * (1 - m.distance)), by rw [hsc]; rfl⟩

/-- C7 witness at a concrete retrieved document. -/
theorem scores_in_unit_interval_witness :
    0 ≤ closeDoc.similarity_score ∧ closeDoc.similarity_score ≤ 1 ∧
      ∃ n : ℤ, closeDoc.similarity_score = (n : ℚ) / 1000 :=
  scores_in_unit_interval defaultSettings
    (.results [closeMatch, fartherMatch]) closeDoc
    (by simp [retrieve_eval_concrete])

/-- C8: an index-query failure is recovered locally as an empty source
list — no error is propagated — and the overall query still completes with
the fixed insufficient-information answer and zero confidence. -/
theorem index_failure_degrades_to_no_context (s : Settings)
    (gen : GenCollab) (q : String) :
    retrieve_documents s .indexFail = [] ∧
    ∃ resp, query s .indexFail gen q = .ok resp ∧
      resp.answer = insufficientMsg s ∧ resp.sources = [] ∧
      resp.confidence = 0 := by
  refine ⟨rfl, _, query_ok s .indexFail gen q, rfl, rfl, ?_⟩
  exact pyRound3_zero

/-- C9: the conversation identifier has no effect: two requests with the
same question and identical collaborator behaviour produce identical
responses whatever their conversation identifiers (present, absent, or
different). -/
theorem conversation_id_inert (s : Settings) (r : RetrievalOutcome)
    (gen : GenCollab) (q : String) (cid₁ cid₂ : Option String) :
    ask_question s r gen ⟨q, cid₁⟩ = ask_question s r gen ⟨q, cid₂⟩ := rfl

/-- C10: for every question string, including the empty string, the core
query returns a validated response whose question field echoes the input;
the minimum-length-1 restriction exists only in the transport-layer
request schema, which rejects the empty string. -/
theorem query_total_echoes_question (s : Settings) (r : RetrievalOutcome)
    (gen : GenCollab) (q : String) :
    (∃ resp, query s r gen q = .ok resp ∧ resp.question = q) ∧
    mkQueryRequest "" none = .error () :=
  ⟨⟨_, query_ok s r gen q, rfl⟩, rfl⟩

end RagFaq
